import Mathlib

/-!
Verification of the hstore lookup resolution and SQL-generation layer of
django-hstore (src/django_hstore/hstore.py), as a shallow embedding.

The embedding covers:
  * the Python value shapes the code branches on (dict, list, tuple,
    string, int, date, None), as the inductive type PyVal;
  * HStoreLookup.__init__ (lookup resolution), prepare_lhs,
    as_constraint_sql and as_sql (SQL rendering), lines 11-97;
  * HStoreField.get_prep_value (lines 140-147);
  * DictionaryField.get_prep_lookup and to_python (lines 162-166);
  * the reference serialization helpers used by ReferencesField, which
    live in django_hstore.util and are modelled from the spec.

External collaborators (the framework base Lookup class, the field-kind
lookup registry CharField/IntegerField/DateField.get_lookup, and the
record fetcher) are modelled as parameters or explicit model values.
-/

namespace HStore

/-- Shapes of Python values that the source branches on with isinstance
checks: dict (mapping), list and tuple (sequences), str (basestring),
int, datetime.date, and None. -/
inductive PyVal where
  | dict : List (String × PyVal) → PyVal
  | list : List PyVal → PyVal
  | tuple : List PyVal → PyVal
  | str : String → PyVal
  | int : Int → PyVal
  | date : Nat → Nat → Nat → PyVal
  | none : PyVal

/-- isinstance(value, dict). -/
def isMapping : PyVal → Bool
  | .dict _ => true
  | _ => false

/-- isinstance(value, (list, tuple)). -/
def isSequence : PyVal → Bool
  | .list _ => true
  | .tuple _ => true
  | _ => false

/-- isinstance(value, basestring). -/
def isTextVal : PyVal → Bool
  | .str _ => true
  | _ => false

/-- isinstance(value, datetime.date). -/
def isDateVal : PyVal → Bool
  | .date _ _ _ => true
  | _ => false

/-- Python truthiness of a value, as used by `value or ...` and
`if value:` in the source: empty containers, the empty string, zero and
None are falsy, everything else is truthy. -/
def truthy : PyVal → Bool
  | .dict d => !d.isEmpty
  | .list xs => !xs.isEmpty
  | .tuple xs => !xs.isEmpty
  | .str s => !s.isEmpty
  | .int n => n != 0
  | .date _ _ _ => true
  | .none => false

/-- The semantic field kind the remaining nested comparison is delegated
to: CharField, IntegerField or DateField in the source (line 10). -/
inductive FieldKind where
  | TEXT : FieldKind
  | INTEGER : FieldKind
  | DATE : FieldKind
deriving DecidableEq

/-- The cast applied after key extraction. The source stores the template
string directly in self.cast; the three values it ever assigns are
"%s" (line 24), "(%s)::INTEGER" (line 32) and "(%s)::DATE" (line 35),
named here NONE, TO_INTEGER and TO_DATE. -/
inductive CastMode where
  | NONE : CastMode
  | TO_INTEGER : CastMode
  | TO_DATE : CastMode
deriving DecidableEq

/-- self.cast % s, evaluated for the three concrete templates the source
ever assigns. -/
def castApply : CastMode → String → String
  | .NONE, s => s
  | .TO_INTEGER, s => "(" ++ s ++ ")::INTEGER"
  | .TO_DATE, s => "(" ++ s ++ ")::DATE"

/-- Model of an inner lookup implementation returned by the external
field-kind lookup registry (retval_field.get_lookup in the source):
prepLhs is its prepare_lhs on a left-hand-side clause, asSql renders its
comparison against the (possibly cast) extraction clause and the compared
value, returning its SQL fragment and its own bound parameters. -/
structure InnerLookup where
  prepLhs : String → String × List PyVal
  asSql : String → PyVal → String × List PyVal

/-- The errors HStoreLookup.__init__ raises (all LookupError in the
source): line 19 (nested lookups on exact/contains), lines 23 and 38
(nesting too deep), line 42 (unknown nested lookup). -/
inductive LookupErr where
  | noNesting : String → LookupErr
  | tooDeep : LookupErr
  | unknownNested : LookupErr
deriving DecidableEq

/-- The ValueError raised by as_constraint_sql for a value of the wrong
shape (lines 74, 82, 86). -/
inductive RenderErr where
  | invalidValue : RenderErr
deriving DecidableEq

/-- The state HStoreLookup.__init__ leaves on the instance: lookup_type,
cast, retval_field and nested_lookup. On the early-return path for
exact/contains the source never assigns self.cast and leaves
self.retval_field and self.nested_lookup as None (lines 15-21); rendering
never consults the cast on that path, and the model records NONE. -/
structure Resolved where
  lookupType : String
  castMode : CastMode
  retvalField : Option FieldKind
  nestedLookup : Option InnerLookup

/-- Lines 39-42: self.nested_lookup = self.retval_field.get_lookup(...);
raise LookupError("Unknown nested lookup!") when the registry returns
nothing. At this call site the token list is always a single token (the
remaining comparison token, or the default "exact"), so the registry is
consulted with that one token. -/
def mkNested (getLookup : FieldKind → String → Option InnerLookup)
    (lookupType : String) (cm : CastMode) (fk : FieldKind) (tok : String) :
    Except LookupErr Resolved :=
  match getLookup fk tok with
  | some il => .ok ⟨lookupType, cm, some fk, some il⟩
  | Option.none => .error .unknownNested

/-- HStoreLookup.__init__ (lines 13-42), parameterized by the external
field-kind lookup registry. For exact/contains: nested lookups are
rejected, otherwise the lookup resolves with no inner lookup. Otherwise
the lookup type is an hstore key: more than two nested tokens is too
deep; a leading asint/asdate token selects the cast and field kind and
the remaining comparison token, defaulting to "exact"
(nested_lookups = (nested_lookups(1) if len == 2 else "exact"), line 29);
a non-cast first token with a second token is too deep; the remaining
single token (or the default "exact") is resolved against the chosen
field kind. -/
def resolve (getLookup : FieldKind → String → Option InnerLookup)
    (lookupType : String) (nestedLookups : List String) :
    Except LookupErr Resolved :=
  if lookupType = "exact" ∨ lookupType = "contains" then
    if nestedLookups.isEmpty then
      .ok ⟨lookupType, .NONE, Option.none, Option.none⟩
    else
      .error (.noNesting lookupType)
  else if 2 < nestedLookups.length then
    .error .tooDeep
  else
    match nestedLookups with
    | [] => mkNested getLookup lookupType .NONE .TEXT "exact"
    | t0 :: rest =>
      if t0 = "asint" ∨ t0 = "asdate" then
        let tok := rest.headD "exact"
        if t0 = "asint" then
          mkNested getLookup lookupType .TO_INTEGER .INTEGER tok
        else
          mkNested getLookup lookupType .TO_DATE .DATE tok
      else if (t0 :: rest).length = 2 then
        .error .tooDeep
      else
        mkNested getLookup lookupType .NONE .TEXT t0

/-- DictionaryField.get_prep_lookup (lines 162-163): returns the value
unchanged. -/
def dictionaryPrepLookup : String → PyVal → PyVal := fun _ v => v

/-- as_constraint_sql (lines 67-89) for a top-level lookup, with the
bound parameter list [value] produced by common_normalize (line 51:
params = (field.get_prep_lookup(lookup_type, params(0)),)) and the
placeholder rhs_format "%s" supplied by the framework base class.
Note the sequence branch (lines 78-82): the guard is `if params:` on the
params list itself, which holds the value and is never empty, so the
error branch on line 82 is unreachable and an empty sequence still
renders. The final fallthrough (lines 87-89) delegates to the nested
lookup; render only reaches this function when there is no nested
lookup, i.e. for exact/contains, so that branch is unreachable here. -/
def as_constraint_sql (lookupType lhs : String) (value : PyVal) :
    Except RenderErr (String × List PyVal) :=
  let params : List PyVal := [value]
  if lookupType = "exact" then
    match value with
    | .dict _ => .ok (lhs ++ " = %s", params)
    | _ => .error .invalidValue
  else if lookupType = "contains" then
    match value with
    | .dict _ => .ok (lhs ++ " @> %s", params)
    | .list _ =>
      if params.isEmpty then .error .invalidValue
      else .ok (lhs ++ " ?& %s", params)
    | .tuple _ =>
      if params.isEmpty then .error .invalidValue
      else .ok (lhs ++ " ?& %s", params)
    | .str _ => .ok (lhs ++ " ? %s", params)
    | _ => .error .invalidValue
  else
    .error .invalidValue

/-- The render contract: for a keyed lookup, the as_sql path
(lines 91-97) with prepare_lhs (lines 54-65): the base class yields the
plain column clause with no parameters; the clause becomes
self.cast % (lhs ++ " -> %s"), the lookup type (the hstore key) is
inserted at position 0 of the parameter list, the inner lookup prepares
the clause further and contributes its parameters, and finally the inner
lookup renders its comparison SQL whose parameters are appended. For a
top-level lookup, common_normalize (lines 44-52) binds the single
prepared value and as_constraint_sql selects the operator. -/
def render (prep : String → PyVal → PyVal) (r : Resolved) (lhs : String)
    (value : PyVal) : Except RenderErr (String × List PyVal) :=
  match r.nestedLookup with
  | some il =>
    let lhs0 := castApply r.castMode (lhs ++ " -> %s")
    let p1 := il.prepLhs lhs0
    let p2 := il.asSql p1.1 value
    .ok (p2.1, PyVal.str r.lookupType :: (p1.2 ++ p2.2))
  | Option.none => as_constraint_sql r.lookupType lhs (prep r.lookupType value)

/-- Model of the external field-kind lookup registry (the get_lookup
collaborator of spec section 6), used only to instantiate theorems at
concrete inputs: the standard equality comparison for "exact" and a
greater-than comparison for "gt", in the shape the framework base
lookups produce (prepare_lhs passes the clause through with no
parameters; as_sql appends the operator and a placeholder and binds the
compared value). -/
def exactLookupImpl : InnerLookup :=
  ⟨fun lhs => (lhs, []), fun lhs v => (lhs ++ " = %s", [v])⟩

/-- Greater-than comparison model, same shape as exactLookupImpl. -/
def gtLookupImpl : InnerLookup :=
  ⟨fun lhs => (lhs, []), fun lhs v => (lhs ++ " > %s", [v])⟩

/-- Concrete registry model for witnesses. -/
def registryModel : FieldKind → String → Option InnerLookup :=
  fun _ tok =>
    if tok = "exact" then some exactLookupImpl
    else if tok = "gt" then some gtLookupImpl
    else Option.none

/-- The resolved state of a top-level exact lookup (resolve "exact" with
no nested tokens). -/
def exactResolved : Resolved := ⟨"exact", .NONE, Option.none, Option.none⟩

/-- The resolved state of a top-level contains lookup. -/
def containsResolved : Resolved :=
  ⟨"contains", .NONE, Option.none, Option.none⟩

/-- Zero-padded two-digit rendering used by strftime %m and %d. -/
def pad2 (n : Nat) : String :=
  if n < 10 then "0" ++ toString n else toString n

/-- Zero-padded four-digit rendering used by strftime %Y. -/
def pad4 (n : Nat) : String :=
  if n < 10 then "000" ++ toString n
  else if n < 100 then "00" ++ toString n
  else if n < 1000 then "0" ++ toString n
  else toString n

/-- strftime("%Y-%m-%d") on a date value (line 146). -/
def fmtDate (y m d : Nat) : String :=
  pad4 y ++ "-" ++ pad2 m ++ "-" ++ pad2 d

/-- The per-value transformation of HStoreField.get_prep_value
(lines 144-146): a date value is replaced by its %Y-%m-%d text form;
any other value is left as it is. -/
def prepVal : PyVal → PyVal
  | .date y m d => .str (fmtDate y m d)
  | v => v

/-- HStoreField.get_prep_value (lines 140-147): a dict is copied with
each date value stringified; anything else is returned unchanged. -/
def get_prep_value : PyVal → PyVal
  | .dict d => .dict (d.map fun kv => (kv.1, prepVal kv.2))
  | v => v

/-- Every value of the mapping is text. -/
def allTextValues : PyVal → Bool
  | .dict d => d.all fun kv => isTextVal kv.2
  | _ => false

/-- No value of the mapping is a date. -/
def noDateValues : PyVal → Bool
  | .dict d => d.all fun kv => !isDateVal kv.2
  | _ => true

/-- DictionaryField.to_python (lines 165-166): `value or` the empty
dict. -/
def to_python (value : PyVal) : PyVal :=
  if truthy value then value else .dict []

/-- Modelled from the spec: an entity with a stable identifier made of a
table name and a primary key; serialize_references, unserialize_references
and acquire_reference live in django_hstore.util, which is not under
src/, so the (de)serialization pair follows spec section 4.2. -/
structure Entity where
  table : String
  pk : String
deriving DecidableEq

/-- Modelled from the spec: the stable string identifier of an entity,
table and primary key joined by a colon; None maps to the empty sentinel
string. -/
def serializeRef : Option Entity → String
  | some e => e.table ++ ":" ++ e.pk
  | Option.none => ""

/-- Modelled from the spec: serializeReferences maps each entity of the
mapping to its stable string identifier. -/
def serialize_references (m : List (String × Option Entity)) :
    List (String × String) :=
  m.map fun kv => (kv.1, serializeRef kv.2)

/-- Modelled from the spec: a lazy reference holds the stored identifier
and resolves it only when read. -/
structure LazyReference where
  ident : String
deriving DecidableEq

/-- Modelled from the spec: deserializeReferences wraps each stored
identifier in a lazy reference without loading anything. -/
def unserialize_references (m : List (String × String)) :
    List (String × LazyReference) :=
  m.map fun kv => (kv.1, ⟨kv.2⟩)

/-- Split a character list at its first colon; nothing when no colon is
present. -/
def splitColon : List Char → Option (List Char × List Char)
  | [] => Option.none
  | c :: cs =>
    if c = ':' then some ([], cs)
    else (splitColon cs).map fun p => (c :: p.1, p.2)

/-- Modelled from the spec: acquire_reference parses the identifier into
table and primary key and asks the external record fetcher; a malformed
identifier or a missing record degrades softly to none, never raising. -/
def acquire_reference (fetch : String → String → Option Entity)
    (s : String) : Option Entity :=
  match splitColon s.data with
  | some (t, p) => fetch ⟨t⟩ ⟨p⟩
  | Option.none => Option.none

/-- Modelled from the spec: reading a lazy reference resolves its stored
identifier against the current record fetcher. -/
def readReference (fetch : String → String → Option Entity)
    (r : LazyReference) : Option Entity :=
  acquire_reference fetch r.ident

/-- Concrete record fetcher model holding exactly one record, used to
instantiate theorems at concrete inputs. -/
def fetchModel : String → String → Option Entity :=
  fun t p => if t = "tbl" ∧ p = "7" then some ⟨"tbl", "7"⟩ else Option.none

/-!  Theorems.  -/

/-- mkNested either succeeds or fails with the unknown-nested-lookup
error; it never reports nesting too deep. -/
theorem mkNested_ne_tooDeep (reg : FieldKind → String → Option InnerLookup)
    (lt : String) (cm : CastMode) (fk : FieldKind) (tok : String) :
    mkNested reg lt cm fk tok ≠ .error .tooDeep := by
  unfold mkNested
  cases reg fk tok <;> simp

/-- Appending strings appends their character data. -/
theorem strData_append (a b : String) : (a ++ b).data = a.data ++ b.data := by
  cases a
  cases b
  rfl

/-- splitColon recovers the two halves around the first colon when the
left half is colon-free. -/
theorem splitColon_append (t rest : List Char) (h : ':' ∉ t) :
    splitColon (t ++ ':' :: rest) = some (t, rest) := by
  induction t with
  | nil => simp [splitColon]
  | cons c cs ih =>
    have hc : ¬(c = ':') := fun hh => h (hh ▸ List.mem_cons_self c cs)
    have hcs : ':' ∉ cs := fun hm => h (List.mem_cons_of_mem c hm)
    simp [splitColon, hc, ih hcs]

/-- Resolving the serialized identifier of an entity whose table name is
colon-free asks the fetcher for exactly that table and primary key. -/
theorem acquire_serialize (fetch : String → String → Option Entity) (e : Entity)
    (h : ':' ∉ e.table.data) :
    acquire_reference fetch (serializeRef (some e)) = fetch e.table e.pk := by
  unfold acquire_reference serializeRef
  have hd : (e.table ++ ":" ++ e.pk).data = e.table.data ++ ':' :: e.pk.data := by
    rw [strData_append, strData_append]
    rw [List.append_assoc]
    rfl
  rw [hd, splitColon_append _ _ h]

/-- Claim C1: the claim states that a top-level contains render on a
sequence value yields the has-all-keys fragment with the sequence as the
single bound parameter, and that an empty sequence fails with the
invalid-value error. The first part holds, but the source guards the
error with a check of the params list itself (which always holds the
value and is never empty) rather than of the value, so an empty sequence
still renders the has-all-keys fragment: this theorem evaluates the code
at the failing input, the empty list. -/
theorem C1_contains_sequence_eval :
    (∀ (lhs : String) (xs : List PyVal),
        render dictionaryPrepLookup containsResolved lhs (.list xs) =
          .ok (lhs ++ " ?& %s", [.list xs])) ∧
    render dictionaryPrepLookup containsResolved "col" (.list []) =
      .ok ("col ?& %s", [PyVal.list []]) :=
  ⟨fun _ _ => rfl, rfl⟩

/-- Claim C2: for a keyed lookup, resolve fails with the nesting-too-deep
error exactly when the nested token list has more than two tokens, or has
exactly two tokens whose first is neither asint nor asdate. -/
theorem C2_depth_error_iff (reg : FieldKind → String → Option InnerLookup)
    (lt : String) (toks : List String) (h : ¬(lt = "exact" ∨ lt = "contains")) :
    resolve reg lt toks = .error .tooDeep ↔
      (2 < toks.length ∨
       (toks.length = 2 ∧ toks.head? ≠ some "asint" ∧ toks.head? ≠ some "asdate")) := by
  unfold resolve
  rw [if_neg h]
  cases toks with
  | nil =>
    simp [mkNested_ne_tooDeep reg lt .NONE .TEXT "exact"]
  | cons t0 rest =>
    cases rest with
    | nil =>
      by_cases ht : t0 = "asint" ∨ t0 = "asdate"
      · rcases ht with h1 | h1 <;> subst h1 <;>
          simp [mkNested_ne_tooDeep]
      · push_neg at ht
        simp [ht.1, ht.2, mkNested_ne_tooDeep]
    | cons t1 rest2 =>
      cases rest2 with
      | nil =>
        by_cases ht : t0 = "asint" ∨ t0 = "asdate"
        · rcases ht with h1 | h1 <;> subst h1 <;>
            simp [mkNested_ne_tooDeep]
        · push_neg at ht
          simp [ht.1, ht.2]
      | cons t2 rest3 =>
        have hlen : 2 < (t0 :: t1 :: t2 :: rest3).length := by
          simp [List.length]
        rw [if_pos hlen]
        simp [hlen]

/-- Witness for C2 at the keyed lookup "mykey" with two non-cast nested
tokens: the depth error fires. -/
theorem C2_depth_error_iff_witness :
    ¬("mykey" = "exact" ∨ "mykey" = "contains") ∧
    resolve registryModel "mykey" ["foo", "bar"] = .error .tooDeep := by
  have h : ¬("mykey" = "exact" ∨ "mykey" = "contains") := by decide
  exact ⟨h, (C2_depth_error_iff registryModel "mykey" ["foo", "bar"] h).mpr (by decide)⟩

/-- Claim C3: for every keyed lookup that renders, the first bound
parameter is the hstore key (the lookup type), followed by the inner
lookup's prepare parameters and then its comparison parameters, in their
own order; a top-level render that succeeds binds exactly the single
prepared value. -/
theorem C3_param_ordering :
    (∀ (prep : String → PyVal → PyVal) (r : Resolved) (il : InnerLookup)
        (lhs : String) (v : PyVal) (sql : String) (params : List PyVal),
        r.nestedLookup = some il →
        render prep r lhs v = .ok (sql, params) →
        params = PyVal.str r.lookupType ::
          ((il.prepLhs (castApply r.castMode (lhs ++ " -> %s"))).2 ++
           (il.asSql (il.prepLhs (castApply r.castMode (lhs ++ " -> %s"))).1 v).2)) ∧
    (∀ (prep : String → PyVal → PyVal) (r : Resolved) (lhs : String) (v : PyVal)
        (sql : String) (params : List PyVal),
        r.nestedLookup = Option.none →
        (r.lookupType = "exact" ∨ r.lookupType = "contains") →
        render prep r lhs v = .ok (sql, params) →
        params = [prep r.lookupType v]) := by
  constructor
  · intro prep r il lhs v sql params hn hr
    simp only [render, hn] at hr
    exact (Prod.mk.injEq _ _ _ _ ▸ (Except.ok.injEq _ _ ▸ hr)).2.symm
  · intro prep r lhs v sql params hn hlt hr
    simp only [render, hn] at hr
    rcases hlt with h | h <;> rw [h] at hr <;>
      cases hval : prep r.lookupType v <;> rw [h] at hval <;> rw [hval] at hr <;>
      simp_all [as_constraint_sql]

/-- Witness for C3: a keyed lookup on key "k" with the equality inner
lookup binds the key first and then the compared value; a top-level
exact render binds exactly the prepared mapping. -/
theorem C3_param_ordering_witness :
    ((Resolved.mk "k" CastMode.NONE Option.none (some exactLookupImpl)).nestedLookup =
        some exactLookupImpl ∧
      render dictionaryPrepLookup
          (Resolved.mk "k" CastMode.NONE Option.none (some exactLookupImpl))
          "col" (PyVal.str "x") =
        .ok ("col -> %s = %s", [PyVal.str "k", PyVal.str "x"]) ∧
      [PyVal.str "k", PyVal.str "x"] = PyVal.str "k" ::
        ((exactLookupImpl.prepLhs (castApply CastMode.NONE ("col" ++ " -> %s"))).2 ++
         (exactLookupImpl.asSql
            (exactLookupImpl.prepLhs (castApply CastMode.NONE ("col" ++ " -> %s"))).1
            (PyVal.str "x")).2)) ∧
    (exactResolved.nestedLookup = Option.none ∧
      render dictionaryPrepLookup exactResolved "col" (PyVal.dict []) =
        .ok ("col = %s", [PyVal.dict []]) ∧
      [PyVal.dict []] = [dictionaryPrepLookup "exact" (PyVal.dict [])]) :=
  ⟨⟨rfl, rfl,
    C3_param_ordering.1 dictionaryPrepLookup
      (Resolved.mk "k" CastMode.NONE Option.none (some exactLookupImpl))
      exactLookupImpl "col" (PyVal.str "x") "col -> %s = %s"
      [PyVal.str "k", PyVal.str "x"] rfl rfl⟩,
   ⟨rfl, rfl,
    C3_param_ordering.2 dictionaryPrepLookup exactResolved "col" (PyVal.dict [])
      "col = %s" [PyVal.dict []] rfl (Or.inl rfl) rfl⟩⟩

/-- Claim C4: resolving the keyed lookup "mykey" with the single nested
token asint succeeds with the integer cast and field kind, and delegates
to the default comparison "exact" resolved against the integer field
kind. -/
theorem C4_asint_default_exact (reg : FieldKind → String → Option InnerLookup)
    (il : InnerLookup) (h : reg .INTEGER "exact" = some il) :
    resolve reg "mykey" ["asint"] =
      .ok ⟨"mykey", .TO_INTEGER, some .INTEGER, some il⟩ := by
  have h0 : resolve reg "mykey" ["asint"] =
      mkNested reg "mykey" .TO_INTEGER .INTEGER "exact" := rfl
  rw [h0]
  unfold mkNested
  rw [h]

/-- Witness for C4 at the concrete registry model. -/
theorem C4_asint_default_exact_witness :
    registryModel .INTEGER "exact" = some exactLookupImpl ∧
    resolve registryModel "mykey" ["asint"] =
      .ok ⟨"mykey", .TO_INTEGER, some .INTEGER, some exactLookupImpl⟩ :=
  ⟨rfl, C4_asint_default_exact registryModel exactLookupImpl rfl⟩

/-- Claim C5: for every keyed lookup the rendered left-hand side handed
to the inner lookup is the cast template applied to the column clause
followed by the arrow-extraction placeholder, and the key is bound
first; in particular resolving "mykey" with asint and rendering against
"col" with value 5 produces SQL containing the integer-cast extraction
clause and parameters beginning with "mykey". -/
theorem C5_cast_template :
    (∀ (prep : String → PyVal → PyVal) (r : Resolved) (il : InnerLookup)
        (lhs : String) (v : PyVal),
        r.nestedLookup = some il →
        render prep r lhs v =
          .ok ((il.asSql (il.prepLhs (castApply r.castMode (lhs ++ " -> %s"))).1 v).1,
               PyVal.str r.lookupType ::
                 ((il.prepLhs (castApply r.castMode (lhs ++ " -> %s"))).2 ++
                  (il.asSql (il.prepLhs (castApply r.castMode (lhs ++ " -> %s"))).1 v).2))) ∧
    (∃ r, resolve registryModel "mykey" ["asint"] = .ok r ∧
       render dictionaryPrepLookup r "col" (.int 5) =
         .ok ("(col -> %s)::INTEGER = %s", [.str "mykey", .int 5]) ∧
       (∃ suffix, "(col -> %s)::INTEGER = %s" = "(col -> %s)::INTEGER" ++ suffix)) := by
  constructor
  · intro prep r il lhs v hn
    simp only [render, hn]
  · exact ⟨⟨"mykey", .TO_INTEGER, some .INTEGER, some exactLookupImpl⟩, rfl, rfl,
      ⟨" = %s", rfl⟩⟩

/-- Witness for C5 at the date cast with the greater-than inner lookup. -/
theorem C5_cast_template_witness :
    (Resolved.mk "k" CastMode.TO_DATE Option.none (some gtLookupImpl)).nestedLookup =
      some gtLookupImpl ∧
    render dictionaryPrepLookup
        (Resolved.mk "k" CastMode.TO_DATE Option.none (some gtLookupImpl)) "col"
        (PyVal.str "2014-01-02") =
      .ok ("(col -> %s)::DATE > %s", [PyVal.str "k", PyVal.str "2014-01-02"]) :=
  ⟨rfl,
   C5_cast_template.1 dictionaryPrepLookup
     (Resolved.mk "k" CastMode.TO_DATE Option.none (some gtLookupImpl)) gtLookupImpl
     "col" (PyVal.str "2014-01-02") rfl⟩

/-- Claim C6: a top-level exact render fails with the invalid-value error
exactly when the value is not a mapping, and renders the equality
fragment with the mapping as the single bound parameter otherwise; the
resolved state used is the one resolve produces for exact with no nested
tokens. -/
theorem C6_exact_mapping (v : PyVal) (lhs : String) :
    (∀ reg, resolve reg "exact" [] = .ok exactResolved) ∧
    (render dictionaryPrepLookup exactResolved lhs v = .error .invalidValue ↔
      isMapping v = false) ∧
    (isMapping v = true →
      render dictionaryPrepLookup exactResolved lhs v = .ok (lhs ++ " = %s", [v])) := by
  refine ⟨fun reg => rfl, ?_, ?_⟩ <;> cases v <;>
    simp [render, as_constraint_sql, dictionaryPrepLookup, isMapping, exactResolved]

/-- Witness for C6 at a concrete mapping and at a non-mapping value. -/
theorem C6_exact_mapping_witness :
    isMapping (PyVal.dict [("a", PyVal.str "1")]) = true ∧
    render dictionaryPrepLookup exactResolved "col" (PyVal.dict [("a", PyVal.str "1")]) =
      .ok ("col = %s", [PyVal.dict [("a", PyVal.str "1")]]) ∧
    render dictionaryPrepLookup exactResolved "col" (PyVal.int 42) =
      .error .invalidValue :=
  ⟨rfl, (C6_exact_mapping (PyVal.dict [("a", PyVal.str "1")]) "col").2.2 rfl,
   (C6_exact_mapping (PyVal.int 42) "col").2.1.mpr rfl⟩

/-- Claim C7: for the top-level lookup types exact and contains, any
non-empty nested token list is rejected with the no-nesting error, and
the empty token list resolves with no cast and no inner lookup. -/
theorem C7_top_level_nesting (reg : FieldKind → String → Option InnerLookup)
    (lt : String) (toks : List String) (h : lt = "exact" ∨ lt = "contains") :
    (toks ≠ [] → resolve reg lt toks = .error (.noNesting lt)) ∧
    resolve reg lt [] = .ok ⟨lt, .NONE, Option.none, Option.none⟩ := by
  constructor
  · intro ht
    unfold resolve
    rw [if_pos h]
    cases toks with
    | nil => exact absurd rfl ht
    | cons a l => rfl
  · unfold resolve
    rw [if_pos h]
    rfl

/-- Witness for C7 at exact with one nested token and with none. -/
theorem C7_top_level_nesting_witness :
    ("exact" = "exact" ∨ "exact" = "contains") ∧
    resolve registryModel "exact" ["a"] = .error (.noNesting "exact") ∧
    resolve registryModel "exact" [] =
      .ok ⟨"exact", .NONE, Option.none, Option.none⟩ :=
  ⟨Or.inl rfl,
   (C7_top_level_nesting registryModel "exact" ["a"] (Or.inl rfl)).1 (by decide),
   (C7_top_level_nesting registryModel "exact" [] (Or.inl rfl)).2⟩

/-- Claim C8, counterexample: the claim states that the prepared mapping
contains only text values, but get_prep_value stringifies only date
values, so a mapping holding an integer value is prepared with the
integer left in place. -/
theorem C8_counterexample :
    allTextValues (get_prep_value (.dict [("a", PyVal.int 5)])) = false := rfl

/-- Claim C8, amended: for every mapping whose values are all text or
date, the prepared mapping contains only text values; no date value ever
survives preparation of any mapping, each being replaced by its
strftime text form; non-mapping values pass through unchanged. -/
theorem C8_storage_text :
    (∀ d : List (String × PyVal),
        d.all (fun kv => isTextVal kv.2 || isDateVal kv.2) = true →
        allTextValues (get_prep_value (.dict d)) = true) ∧
    (∀ d : List (String × PyVal), noDateValues (get_prep_value (.dict d)) = true) ∧
    (∀ y m dd, prepVal (.date y m dd) = .str (fmtDate y m dd)) ∧
    (∀ v, isMapping v = false → get_prep_value v = v) := by
  refine ⟨?_, ?_, fun y m dd => rfl, ?_⟩
  · intro d hd
    simp only [get_prep_value, allTextValues, List.all_map, List.all_eq_true] at *
    intro kv hkv
    rcases kv with ⟨k, v⟩
    have := hd ⟨k, v⟩ hkv
    cases v <;> simp_all [isTextVal, isDateVal, prepVal]
  · intro d
    simp only [get_prep_value, noDateValues, List.all_map, List.all_eq_true]
    intro kv hkv
    rcases kv with ⟨k, v⟩
    cases v <;> simp [isDateVal, prepVal]
  · intro v hv
    cases v <;> simp_all [isMapping, get_prep_value]

/-- Witness for C8 at a mapping holding a text and a date value, and at
a non-mapping value. -/
theorem C8_storage_text_witness :
    ([("a", PyVal.str "x"), ("b", PyVal.date 2014 1 2)].all
        (fun kv => isTextVal kv.2 || isDateVal kv.2) = true) ∧
    allTextValues (get_prep_value
        (.dict [("a", PyVal.str "x"), ("b", PyVal.date 2014 1 2)])) = true ∧
    isMapping (PyVal.str "s") = false ∧
    get_prep_value (PyVal.str "s") = PyVal.str "s" :=
  ⟨rfl, C8_storage_text.1 _ rfl, rfl, C8_storage_text.2.2.2 _ rfl⟩

/-- Claim C9: deserializing the serialized references of a mapping gives
lazy references that, read against a fetcher still holding every
serialized entity under its stable identifier, recover the original
mapping exactly; when the fetcher no longer holds the record, reading
degrades softly to none instead of raising. -/
theorem C9_reference_roundtrip :
    (∀ (fetch : String → String → Option Entity) (m : List (String × Option Entity)),
        (∀ k e, (k, some e) ∈ m → (':' ∉ e.table.data ∧ fetch e.table e.pk = some e)) →
        (unserialize_references (serialize_references m)).map
            (fun kv => (kv.1, readReference fetch kv.2)) = m) ∧
    (∀ (fetch : String → String → Option Entity) (e : Entity),
        ':' ∉ e.table.data → fetch e.table e.pk = Option.none →
        readReference fetch ⟨serializeRef (some e)⟩ = Option.none) := by
  constructor
  · intro fetch m hm
    induction m with
    | nil => rfl
    | cons kv tl ih =>
      have htl : ∀ k e, (k, some e) ∈ tl →
          (':' ∉ e.table.data ∧ fetch e.table e.pk = some e) :=
        fun k e hk => hm k e (List.mem_cons_of_mem kv hk)
      simp only [serialize_references, unserialize_references, List.map_cons,
        List.map_map] at *
      rw [ih htl]
      rcases kv with ⟨k, v⟩
      cases v with
      | none => rfl
      | some e =>
        have he := hm k e (List.mem_cons_self _ _)
        simp only [readReference]
        rw [acquire_serialize fetch e he.1, he.2]
  · intro fetch e h hf
    simp only [readReference]
    rw [acquire_serialize fetch e h, hf]

/-- Witness for C9 at a one-entry mapping: the round trip through the
concrete fetcher model recovers the entity, and a fetcher holding
nothing resolves the same reference to none. -/
theorem C9_reference_roundtrip_witness :
    (unserialize_references (serialize_references [("a", some (Entity.mk "tbl" "7"))])).map
        (fun kv => (kv.1, readReference fetchModel kv.2)) =
      [("a", some (Entity.mk "tbl" "7"))] ∧
    readReference (fun _ _ => Option.none) ⟨serializeRef (some (Entity.mk "tbl" "7"))⟩ =
      Option.none := by
  constructor
  · refine C9_reference_roundtrip.1 fetchModel _ ?_
    intro k e hk
    simp only [List.mem_singleton, Prod.mk.injEq, Option.some.injEq] at hk
    rw [hk.2]
    exact ⟨by decide, rfl⟩
  · exact C9_reference_roundtrip.2 _ _ (by decide) rfl

/-- Claim C10: to_python returns the empty mapping for every falsy value,
None included, returns every truthy value unchanged, and never returns
None. -/
theorem C10_to_python_falsy :
    (to_python PyVal.none = .dict []) ∧
    (∀ v, truthy v = false → to_python v = .dict []) ∧
    (∀ v, truthy v = true → to_python v = v) ∧
    (∀ v, to_python v ≠ PyVal.none) := by
  refine ⟨rfl, fun v hv => by simp [to_python, hv], fun v hv => by simp [to_python, hv], ?_⟩
  intro v
  unfold to_python
  split
  · cases v <;> simp_all [truthy]
  · simp

/-- Witness for C10 at the empty string (falsy) and a non-empty mapping
(truthy). -/
theorem C10_to_python_falsy_witness :
    truthy (PyVal.str "") = false ∧ to_python (PyVal.str "") = .dict [] ∧
    truthy (PyVal.dict [("a", PyVal.str "1")]) = true ∧
    to_python (PyVal.dict [("a", PyVal.str "1")]) = PyVal.dict [("a", PyVal.str "1")] :=
  ⟨rfl, C10_to_python_falsy.2.1 _ rfl, rfl, C10_to_python_falsy.2.2.1 _ rfl⟩

end HStore
